import Mathlib

/-!
Verification of the Nano-Panorama repository: a shallow embedding in Lean 4 of
the image-template compositor (`createImageTemplate` of `src/utils/fileUtils.ts`
and `src/unnamed/part_000`), the three remote-service wrappers
(`generateSourceImage`, `generatePanorama`, `enhanceImage`) and the
session-controller handlers (`handleGenerate`, `handleEnhance`,
`handleReuseItem`, `handleImageUpload`, `handleGenerateInitial`) of
`src/unnamed/part_000`, together with theorems settling the specification
claims about them.

Numeric conventions: the compositor's arithmetic (JS doubles on pixel
dimensions) is modelled exactly over `ℚ`; JS string truthiness (`!s`) is
modelled as emptiness; fallible operations return `Except String` carrying the
thrown error message; the remote network exchange is abstracted by passing the
remote response (or the transport error message) as an explicit argument, so
that a wrapper's independence of that argument expresses that no network
attempt influences its outcome.
-/

namespace NanoPanorama

/-! ## Image Template Compositor (`createImageTemplate`)

The geometric core of `createImageTemplate`: the canvas dimensions, the draw
dimensions of the scaled source image and the centering offsets, exactly as
computed in `src/utils/fileUtils.ts` lines 24-56. -/

def TARGET_WIDTH : ℚ := 1280

def TARGET_HEIGHT : ℚ := 720

def TARGET_ASPECT : ℚ := TARGET_WIDTH / TARGET_HEIGHT

/-- The geometry produced by the compositor: the output canvas size, the size
at which the source image is drawn, and the draw origin. -/
structure TemplateGeometry where
  canvasWidth : ℚ
  canvasHeight : ℚ
  drawWidth : ℚ
  drawHeight : ℚ
  offsetX : ℚ
  offsetY : ℚ
deriving DecidableEq, Repr

/-- Geometry of `createImageTemplate` for a source image of pixel size
`originalWidth` by `originalHeight`: the canvas is fixed to 1280 by 720, the
image is scaled to fit preserving aspect ratio (fit to width when the source
aspect ratio exceeds the target ratio, else fit to height) and centered. -/
def createImageTemplate (originalWidth originalHeight : ℚ) : TemplateGeometry :=
  let originalAspectRatio := originalWidth / originalHeight
  let dims :=
    if originalAspectRatio > TARGET_ASPECT then
      (TARGET_WIDTH, TARGET_WIDTH / originalAspectRatio)
    else
      (TARGET_HEIGHT * originalAspectRatio, TARGET_HEIGHT)
  { canvasWidth := TARGET_WIDTH
    canvasHeight := TARGET_HEIGHT
    drawWidth := dims.1
    drawHeight := dims.2
    offsetX := (TARGET_WIDTH - dims.1) / 2
    offsetY := (TARGET_HEIGHT - dims.2) / 2 }

/-- The base64 payload and format tag produced by `createImageTemplate` after
encoding the canvas (the resolved `FileConversionResult` of
`src/utils/fileUtils.ts` lines 1-4). -/
structure FileConversionResult where
  base64 : String
  mimeType : String
deriving DecidableEq, Repr

/-! ## JS string semantics helpers -/

/-- JS truthiness of a string: `!s` is false exactly for the empty string. -/
def jsTruthyStr (x : String) : Bool := x != ""

/-- JS truthiness of a nullable string (`string | null`). -/
def jsTruthy : Option String → Bool
  | none => false
  | some x => jsTruthyStr x

/-- Does the character list `sub` occur as a prefix of `s`? -/
def charsStartWith : List Char → List Char → Bool
  | [], _ => true
  | _ :: _, [] => false
  | a :: as, b :: bs => a == b && charsStartWith as bs

/-- Does the character list `sub` occur contiguously inside `s`? -/
def charsContain : List Char → List Char → Bool
  | [], sub => sub.isEmpty
  | c :: rest, sub => charsStartWith sub (c :: rest) || charsContain rest sub

/-- JS `s.includes(sub)`. -/
def jsIncludes (s sub : String) : Bool := charsContain s.toList sub.toList

/-! ## Remote service wrappers (`src/unnamed/part_000` lines 78-207)

The Gemini response shapes consumed by the wrappers. -/

structure InlineData where
  data : String
  mimeType : String
deriving DecidableEq, Repr

/-- One part of a model response: optional inline image data and optional
text, as accessed by the response-walking loops. -/
structure Part where
  inlineData : Option InlineData
  text : Option String
deriving DecidableEq, Repr

structure Content where
  parts : List Part
deriving DecidableEq, Repr

structure Candidate where
  content : Content
deriving DecidableEq, Repr

structure GenerateContentResponse where
  candidates : List Candidate
deriving DecidableEq, Repr

/-- The `PanoramaResult` interface of `src/unnamed/part_000` lines 73-76. -/
structure PanoramaResult where
  imageUrl : Option String
  text : Option String
deriving DecidableEq, Repr

/-- One iteration of the response-walking loop of `generatePanorama` and
`enhanceImage` (`src/unnamed/part_000` lines 137-145 and 186-194): an inline
part with non-empty data (re)binds `imageUrl` to a data URL, else a non-empty
text part (re)binds `text`. -/
def processPart (acc : Option String × Option String) (p : Part) :
    Option String × Option String :=
  match p.inlineData with
  | some d =>
    if d.data ≠ "" then
      (some ("data:" ++ d.mimeType ++ ";base64," ++ d.data), acc.2)
    else
      match p.text with
      | some t => if t ≠ "" then (acc.1, some t) else acc
      | none => acc
  | none =>
    match p.text with
    | some t => if t ≠ "" then (acc.1, some t) else acc
    | none => acc

/-- The whole response-walking loop over `candidates[0].content.parts`. -/
def scanParts (ps : List Part) : Option String × Option String :=
  ps.foldl processPart (none, none)

def apiKeyMissingMsg : String := "API ключ не предоставлен."

def configErrorMsg : String := "Произошла ошибка конфигурации. Проверьте ваш API ключ."

def panoramaFailMsg : String :=
  "Не удалось сгенерировать панораму. Пожалуйста, попробуйте еще раз позже."

def enhanceFailMsg : String :=
  "Не удалось улучшить изображение. Пожалуйста, попробуйте еще раз позже."

def sourceFailMsg : String :=
  "Не удалось сгенерировать исходное изображение. Пожалуйста, попробуйте еще раз позже."

/-- The catch-block classification shared by all three wrappers: an error
message containing an API-key or permission marker becomes the configuration
error, anything else becomes the wrapper's generic failure message. -/
def classifyGeminiError (fallback msg : String) : String :=
  if jsIncludes msg "API_KEY" || jsIncludes msg "permission denied" then configErrorMsg
  else fallback

/-- `generatePanorama` (`src/unnamed/part_000` lines 110-158): rejects an
empty API key before anything else; on a transport error classifies the
message; on a response extracts the last inline-image part as a data URL and
the last text part, failing (with the generic message, after the internal
throw is re-classified by the catch block) when no image part is present. -/
def generatePanorama (base64ImageData mimeType userPrompt apiKey : String)
    (response : Except String GenerateContentResponse) : Except String PanoramaResult :=
  if apiKey = "" then Except.error apiKeyMissingMsg
  else
    match response with
    | Except.error e => Except.error (classifyGeminiError panoramaFailMsg e)
    | Except.ok resp =>
      let found :=
        match resp.candidates with
        | [] => ((none : Option String), (none : Option String))
        | c :: _ => scanParts c.content.parts
      match found.1 with
      | none => Except.error panoramaFailMsg
      | some url => Except.ok { imageUrl := some url, text := found.2 }

/-- `enhanceImage` (`src/unnamed/part_000` lines 160-207): same shape as
`generatePanorama` with the fixed enhancement instruction and its own
fallback message. -/
def enhanceImage (base64ImageData mimeType apiKey : String)
    (response : Except String GenerateContentResponse) : Except String PanoramaResult :=
  if apiKey = "" then Except.error apiKeyMissingMsg
  else
    match response with
    | Except.error e => Except.error (classifyGeminiError enhanceFailMsg e)
    | Except.ok resp =>
      let found :=
        match resp.candidates with
        | [] => ((none : Option String), (none : Option String))
        | c :: _ => scanParts c.content.parts
      match found.1 with
      | none => Except.error enhanceFailMsg
      | some url => Except.ok { imageUrl := some url, text := found.2 }

structure ImageObject where
  imageBytes : String
deriving DecidableEq, Repr

structure GeneratedImage where
  image : ImageObject
deriving DecidableEq, Repr

structure GenerateImagesResponse where
  generatedImages : List GeneratedImage
deriving DecidableEq, Repr

/-- `generateSourceImage` (`src/unnamed/part_000` lines 78-107): rejects an
empty API key first; then returns the first generated image's bytes, failing
(generic message via the catch block) when the list is empty or the bytes are
an empty string. -/
def generateSourceImage (prompt apiKey : String)
    (response : Except String GenerateImagesResponse) : Except String String :=
  if apiKey = "" then Except.error apiKeyMissingMsg
  else
    match response with
    | Except.error e => Except.error (classifyGeminiError sourceFailMsg e)
    | Except.ok r =>
      match r.generatedImages with
      | [] => Except.error sourceFailMsg
      | gi :: _ =>
        if gi.image.imageBytes = "" then Except.error sourceFailMsg
        else Except.ok gi.image.imageBytes

/-! ## Generation Session Controller (`src/unnamed/part_000` lines 458-634) -/

inductive SourceMode where
  | upload
  | generate
deriving DecidableEq, Repr

/-- The `HistoryItem` interface of `src/unnamed/part_000` lines 7-13. -/
structure HistoryItem where
  id : Nat
  prompt : String
  templateImageBase64 : String
  templateImageMimeType : String
  generatedImageUrl : String
deriving DecidableEq, Repr

/-- The React state of the `App` component (`src/unnamed/part_000` lines
459-474), taken after all `setX` calls of a handler have been applied. -/
structure AppState where
  apiKey : String
  base64Image : Option String
  imagePreview : Option String
  mimeType : Option String
  prompt : String
  generatedImage : Option String
  generatedText : Option String
  isLoading : Bool
  isEnhancing : Bool
  error : Option String
  statusMessage : String
  history : List HistoryItem
  sourceMode : SourceMode
  initialPrompt : String
  isGeneratingInitial : Bool
deriving DecidableEq, Repr

def generatePreconditionMsg : String :=
  "Пожалуйста, загрузите изображение, введите описание и укажите ваш API-ключ."

def noImageToEnhanceMsg : String := "Нет изображения для улучшения."

def enterApiKeyMsg : String := "Пожалуйста, введите ваш API ключ."

def enterInitialPromptMsg : String :=
  "Пожалуйста, введите описание для генерации изображения."

def badDataUrlMsg : String := "Неверный формат Data URL изображения"

/-- `handleGenerate` (`src/unnamed/part_000` lines 543-581). `now` is the
timestamp `Date.now()` used as the new history entry's id; `response` is the
remote exchange outcome consumed by `generatePanorama`. -/
def handleGenerate (s : AppState) (now : Nat)
    (response : Except String GenerateContentResponse) : AppState :=
  if !jsTruthy s.base64Image || !jsTruthy s.mimeType ||
      !jsTruthyStr s.prompt || !jsTruthyStr s.apiKey then
    { s with error := some generatePreconditionMsg }
  else
    let s1 := { s with isLoading := true, error := none, generatedImage := none,
                       generatedText := none, statusMessage := "Инициализация модели..." }
    match generatePanorama (s.base64Image.getD "") (s.mimeType.getD "")
        s.prompt s.apiKey response with
    | Except.ok result =>
      let s2 := { s1 with generatedImage := result.imageUrl,
                          generatedText := result.text,
                          statusMessage := "Панорама успешно создана!" }
      let s3 :=
        if jsTruthy result.imageUrl then
          { s2 with history :=
              { id := now, prompt := s.prompt,
                templateImageBase64 := s.base64Image.getD "",
                templateImageMimeType := s.mimeType.getD "",
                generatedImageUrl := result.imageUrl.getD "" } :: s2.history }
        else s2
      { s3 with isLoading := false }
    | Except.error e => { s1 with error := some e, statusMessage := "", isLoading := false }

/-- The lazy regex capture of `/:(.*?);/`: the characters strictly before the
first `;`, or `none` when no `;` occurs. -/
def takeBeforeSemicolon : List Char → Option (List Char)
  | [] => none
  | c :: rest =>
    if c = ';' then some []
    else (takeBeforeSemicolon rest).map (fun l => c :: l)

/-- The full lazy match of `/:(.*?);/`: starting at the first `:` that is
followed by a `;`, capture the characters between them. -/
def lazyMimeMatch : List Char → Option (List Char)
  | [] => none
  | c :: rest =>
    if c = ':' then
      match takeBeforeSemicolon rest with
      | some cap => some cap
      | none => lazyMimeMatch rest
    else lazyMimeMatch rest

/-- `parts[0].match(/:(.*?);/)?.[1] || 'image/png'` of `src/unnamed/part_000`
line 598: a missing or empty capture falls back to `image/png`. -/
def getMime (s : String) : String :=
  match lazyMimeMatch s.toList with
  | some cap => if cap.isEmpty then "image/png" else cap.asString
  | none => "image/png"

/-- JS `String.prototype.split` with a single-character separator, at the
character level (an empty string yields `[""]`, adjacent separators yield
empty groups, exactly as in JS). -/
def splitCharsOn (sep : Char) : List Char → List (List Char)
  | [] => [[]]
  | c :: rest =>
    let r := splitCharsOn sep rest
    if c = sep then [] :: r
    else
      match r with
      | [] => [[c]]
      | g :: gs => (c :: g) :: gs

/-- JS `s.split(sep)` for a one-character separator. -/
def jsSplit (s : String) (sep : Char) : List String :=
  (splitCharsOn sep s.toList).map List.asString

/-- `handleEnhance` (`src/unnamed/part_000` lines 583-615). -/
def handleEnhance (s : AppState)
    (response : Except String GenerateContentResponse) : AppState :=
  if !jsTruthy s.generatedImage then { s with error := some noImageToEnhanceMsg }
  else if !jsTruthyStr s.apiKey then { s with error := some enterApiKeyMsg }
  else
    let s1 := { s with isEnhancing := true, error := none, generatedText := none }
    let parts := jsSplit (s.generatedImage.getD "") ','
    if parts.length = 2 then
      let mime := getMime (parts.getD 0 "")
      let base64Data := parts.getD 1 ""
      match enhanceImage base64Data mime s.apiKey response with
      | Except.ok result =>
        let s2 := { s1 with generatedImage := result.imageUrl,
                            generatedText := result.text }
        let s3 :=
          match result.imageUrl, s2.history with
          | some u, item :: rest =>
            if u ≠ "" then
              { s2 with history := { item with generatedImageUrl := u } :: rest }
            else s2
          | _, _ => s2
        { s3 with isEnhancing := false }
      | Except.error e => { s1 with error := some e, isEnhancing := false }
    else
      { s1 with error := some badDataUrlMsg, isEnhancing := false }

/-- `handleReuseItem` (`src/unnamed/part_000` lines 617-626). -/
def handleReuseItem (s : AppState) (item : HistoryItem) : AppState :=
  { s with prompt := item.prompt,
           base64Image := some item.templateImageBase64,
           mimeType := some item.templateImageMimeType,
           imagePreview :=
             some ("data:" ++ item.templateImageMimeType ++ ";base64," ++
               item.templateImageBase64),
           generatedImage := some item.generatedImageUrl,
           generatedText := none,
           error := none,
           sourceMode := SourceMode.upload }

/-- `handleImageUpload` (`src/unnamed/part_000` lines 495-509). `previewUrl`
is the object URL created for the file and `templateResult` the outcome of
`createImageTemplate` on it. -/
def handleImageUpload (s : AppState) (previewUrl : String)
    (templateResult : Except String FileConversionResult) : AppState :=
  let s1 := { s with error := none, generatedImage := none, generatedText := none,
                     imagePreview := some previewUrl }
  match templateResult with
  | Except.ok r => { s1 with base64Image := some r.base64, mimeType := some r.mimeType }
  | Except.error e => { s1 with error := some e }

/-- `handleGenerateInitial` (`src/unnamed/part_000` lines 511-540). On a
successful text-to-image call the generated bytes are wrapped as a file and
fed through `handleImageUpload`; `previewUrl` and `templateResult` abstract
that browser round trip. -/
def handleGenerateInitial (s : AppState)
    (sourceResp : Except String GenerateImagesResponse) (previewUrl : String)
    (templateResult : Except String FileConversionResult) : AppState :=
  if !jsTruthyStr s.initialPrompt then { s with error := some enterInitialPromptMsg }
  else if !jsTruthyStr s.apiKey then { s with error := some enterApiKeyMsg }
  else
    let s1 := { s with isGeneratingInitial := true, error := none,
                       generatedImage := none, generatedText := none,
                       imagePreview := none, base64Image := none }
    match generateSourceImage s.initialPrompt s.apiKey sourceResp with
    | Except.ok _bytes =>
      let s2 := handleImageUpload s1 previewUrl templateResult
      { s2 with sourceMode := SourceMode.upload, isGeneratingInitial := false }
    | Except.error e => { s1 with error := some e, isGeneratingInitial := false }

/-- `handleDeleteItem` (`src/unnamed/part_000` lines 628-630). -/
def handleDeleteItem (s : AppState) (id : Nat) : AppState :=
  { s with history := s.history.filter (fun item => item.id != id) }

/-- `handleClearHistory` (`src/unnamed/part_000` lines 632-634). -/
def handleClearHistory (s : AppState) : AppState :=
  { s with history := [] }

/-! ## Shared lemmas about the compositor -/

lemma createImageTemplate_of_wide (w h : ℚ) (hr : w / h > 1280 / 720) :
    createImageTemplate w h =
      { canvasWidth := 1280, canvasHeight := 720, drawWidth := 1280,
        drawHeight := 1280 / (w / h), offsetX := (1280 - 1280) / 2,
        offsetY := (720 - 1280 / (w / h)) / 2 } := by
  have hr' : w / h > TARGET_ASPECT := by
    simpa [TARGET_ASPECT, TARGET_WIDTH, TARGET_HEIGHT] using hr
  simp [createImageTemplate, if_pos hr', TARGET_WIDTH, TARGET_HEIGHT]

lemma createImageTemplate_of_tall (w h : ℚ) (hr : ¬ w / h > 1280 / 720) :
    createImageTemplate w h =
      { canvasWidth := 1280, canvasHeight := 720, drawWidth := 720 * (w / h),
        drawHeight := 720, offsetX := (1280 - 720 * (w / h)) / 2,
        offsetY := (720 - 720) / 2 } := by
  have hr' : ¬ w / h > TARGET_ASPECT := by
    simpa [TARGET_ASPECT, TARGET_WIDTH, TARGET_HEIGHT] using hr
  simp [createImageTemplate, if_neg hr', TARGET_WIDTH, TARGET_HEIGHT]

lemma fit_width_drawHeight_le (r : ℚ) (hr : r > 1280 / 720) : 1280 / r ≤ 720 := by
  rw [div_le_iff₀ (by linarith : (0:ℚ) < r)]
  nlinarith

lemma fit_height_drawWidth_le (r : ℚ) (hr : ¬ r > 1280 / 720) : 720 * r ≤ 1280 := by
  push_neg at hr
  nlinarith

/-! ## Claim C1 -/

/-- C1: for every source image of width `w` and height `h` (both positive),
`createImageTemplate` computes `drawWidth = 1280` and
`drawHeight = 1280 / (w/h)` when `w/h > 1280/720`, else `drawHeight = 720`
and `drawWidth = 720 * (w/h)`; the draw offsets are `(1280 - drawWidth)/2`
and `(720 - drawHeight)/2`, both nonnegative; and the 2000x1000 source maps
to a 1280x640 draw at offset (0,40) while the 800x1600 source maps to a
360x720 draw at offset (460,0). -/
theorem createImageTemplate_scaling (w h : ℚ) (hw : 0 < w) (hh : 0 < h) :
    ((w / h > 1280 / 720 →
        (createImageTemplate w h).drawWidth = 1280 ∧
        (createImageTemplate w h).drawHeight = 1280 / (w / h)) ∧
      (¬ w / h > 1280 / 720 →
        (createImageTemplate w h).drawHeight = 720 ∧
        (createImageTemplate w h).drawWidth = 720 * (w / h))) ∧
    (createImageTemplate w h).offsetX = (1280 - (createImageTemplate w h).drawWidth) / 2 ∧
    (createImageTemplate w h).offsetY = (720 - (createImageTemplate w h).drawHeight) / 2 ∧
    0 ≤ (createImageTemplate w h).offsetX ∧
    0 ≤ (createImageTemplate w h).offsetY ∧
    createImageTemplate 2000 1000 = ⟨1280, 720, 1280, 640, 0, 40⟩ ∧
    createImageTemplate 800 1600 = ⟨1280, 720, 360, 720, 460, 0⟩ := by
  have ex1 : createImageTemplate 2000 1000 = ⟨1280, 720, 1280, 640, 0, 40⟩ := by
    norm_num [createImageTemplate, TARGET_WIDTH, TARGET_HEIGHT, TARGET_ASPECT,
      TemplateGeometry.mk.injEq]
  have ex2 : createImageTemplate 800 1600 = ⟨1280, 720, 360, 720, 460, 0⟩ := by
    norm_num [createImageTemplate, TARGET_WIDTH, TARGET_HEIGHT, TARGET_ASPECT,
      TemplateGeometry.mk.injEq]
  by_cases hr : w / h > 1280 / 720
  · have hle := fit_width_drawHeight_le (w / h) hr
    rw [createImageTemplate_of_wide w h hr]
    exact ⟨⟨fun _ => ⟨rfl, rfl⟩, fun hc => absurd hr hc⟩, rfl, rfl,
      by norm_num, by linarith, ex1, ex2⟩
  · have hle := fit_height_drawWidth_le (w / h) hr
    rw [createImageTemplate_of_tall w h hr]
    exact ⟨⟨fun hc => absurd hc hr, fun _ => ⟨rfl, rfl⟩⟩, rfl, rfl,
      by linarith, by norm_num, ex1, ex2⟩

/-- C1 witness: the scaling specification instantiated at the 2000x1000
source image. -/
theorem createImageTemplate_scaling_witness :
    (((2000:ℚ) / 1000 > 1280 / 720 →
        (createImageTemplate 2000 1000).drawWidth = 1280 ∧
        (createImageTemplate 2000 1000).drawHeight = 1280 / ((2000:ℚ) / 1000)) ∧
      (¬ (2000:ℚ) / 1000 > 1280 / 720 →
        (createImageTemplate 2000 1000).drawHeight = 720 ∧
        (createImageTemplate 2000 1000).drawWidth = 720 * ((2000:ℚ) / 1000))) ∧
    (createImageTemplate 2000 1000).offsetX =
      (1280 - (createImageTemplate 2000 1000).drawWidth) / 2 ∧
    (createImageTemplate 2000 1000).offsetY =
      (720 - (createImageTemplate 2000 1000).drawHeight) / 2 ∧
    0 ≤ (createImageTemplate 2000 1000).offsetX ∧
    0 ≤ (createImageTemplate 2000 1000).offsetY ∧
    createImageTemplate 2000 1000 = ⟨1280, 720, 1280, 640, 0, 40⟩ ∧
    createImageTemplate 800 1600 = ⟨1280, 720, 360, 720, 460, 0⟩ :=
  createImageTemplate_scaling 2000 1000 (by norm_num) (by norm_num)

/-! ## Claim C2 -/

/-- C2 counterexample: the 1000x1000 source image has width >= height, yet
its scaled draw width is 720, not 1280 as the claim demands, so the claimed
width/height dichotomy is false on the code. -/
theorem createImageTemplate_square_counterexample :
    (1000 : ℚ) ≥ 1000 ∧ (createImageTemplate 1000 1000).drawWidth = 720 ∧
      (createImageTemplate 1000 1000).drawWidth ≠ 1280 := by
  norm_num [createImageTemplate, TARGET_WIDTH, TARGET_HEIGHT, TARGET_ASPECT]

/-- C2 amended: the dichotomy is by aspect ratio, not by width versus height.
For every positive source size, when `w/h > 1280/720` the scaled draw width is
1280 and the draw height is at most 720; when `w/h <= 1280/720` (in particular
whenever height > width) the draw height is 720 and the draw width is at most
1280; and the output canvas is always exactly 1280x720. -/
theorem createImageTemplate_fit (w h : ℚ) (hw : 0 < w) (hh : 0 < h) :
    (w / h > 1280 / 720 →
      (createImageTemplate w h).drawWidth = 1280 ∧
      (createImageTemplate w h).drawHeight ≤ 720) ∧
    (w / h ≤ 1280 / 720 →
      (createImageTemplate w h).drawHeight = 720 ∧
      (createImageTemplate w h).drawWidth ≤ 1280) ∧
    (h > w →
      (createImageTemplate w h).drawHeight = 720 ∧
      (createImageTemplate w h).drawWidth ≤ 1280) ∧
    (createImageTemplate w h).canvasWidth = 1280 ∧
    (createImageTemplate w h).canvasHeight = 720 := by
  by_cases hr : w / h > 1280 / 720
  · have hle := fit_width_drawHeight_le (w / h) hr
    have hlt1 : ¬ h > w := by
      intro hgt
      have : w / h < 1 := (div_lt_one hh).mpr hgt
      linarith
    rw [createImageTemplate_of_wide w h hr]
    exact ⟨fun _ => ⟨rfl, hle⟩, fun hc => absurd hr (not_lt.mpr hc),
      fun hgt => absurd hgt hlt1, rfl, rfl⟩
  · have hle := fit_height_drawWidth_le (w / h) hr
    rw [createImageTemplate_of_tall w h hr]
    exact ⟨fun hc => absurd hc hr, fun _ => ⟨rfl, hle⟩, fun _ => ⟨rfl, hle⟩, rfl, rfl⟩

/-- C2 witness: the amended fit property instantiated at a 3000x1000 source. -/
theorem createImageTemplate_fit_witness :
    ((3000:ℚ) / 1000 > 1280 / 720 →
      (createImageTemplate 3000 1000).drawWidth = 1280 ∧
      (createImageTemplate 3000 1000).drawHeight ≤ 720) ∧
    ((3000:ℚ) / 1000 ≤ 1280 / 720 →
      (createImageTemplate 3000 1000).drawHeight = 720 ∧
      (createImageTemplate 3000 1000).drawWidth ≤ 1280) ∧
    ((1000:ℚ) > 3000 →
      (createImageTemplate 3000 1000).drawHeight = 720 ∧
      (createImageTemplate 3000 1000).drawWidth ≤ 1280) ∧
    (createImageTemplate 3000 1000).canvasWidth = 1280 ∧
    (createImageTemplate 3000 1000).canvasHeight = 720 :=
  createImageTemplate_fit 3000 1000 (by norm_num) (by norm_num)

/-! ## Claim C8 -/

/-- C8: for a source of exactly 1280x720 the computed draw size is 1280x720
and both offsets are 0, so the image is drawn unscaled at the origin. -/
theorem createImageTemplate_target_size_fixpoint :
    (createImageTemplate 1280 720).drawWidth = 1280 ∧
    (createImageTemplate 1280 720).drawHeight = 720 ∧
    (createImageTemplate 1280 720).offsetX = 0 ∧
    (createImageTemplate 1280 720).offsetY = 0 := by
  norm_num [createImageTemplate, TARGET_WIDTH, TARGET_HEIGHT, TARGET_ASPECT]

/-! ## Shared lemmas about the service wrappers -/

lemma dataUrl_ne_empty (m p : String) : ("data:" ++ m ++ ";base64," ++ p) ≠ "" := by
  intro h
  have h1 := congrArg String.length h
  simp [String.length_append] at h1
  exact absurd h1.1.1.1 (by decide)

lemma processPart_image (acc : Option String × Option String) (p : Part) (u : String)
    (h : (processPart acc p).1 = some u) :
    acc.1 = some u ∨
      ∃ mime payload, u = "data:" ++ mime ++ ";base64," ++ payload ∧ payload ≠ "" := by
  unfold processPart at h
  split at h
  · rename_i d _
    split at h
    · rename_i hdata
      exact Or.inr ⟨d.mimeType, d.data, (Option.some.injEq _ _ ▸ h).symm, hdata⟩
    · split at h
      · split at h
        · exact Or.inl h
        · exact Or.inl h
      · exact Or.inl h
  · split at h
    · split at h
      · exact Or.inl h
      · exact Or.inl h
    · exact Or.inl h

lemma foldl_processPart_image (ps : List Part) (acc : Option String × Option String)
    (u : String) (h : (ps.foldl processPart acc).1 = some u) :
    acc.1 = some u ∨
      ∃ mime payload, u = "data:" ++ mime ++ ";base64," ++ payload ∧ payload ≠ "" := by
  induction ps generalizing acc with
  | nil => exact Or.inl h
  | cons p ps ih =>
    rcases ih (processPart acc p) h with h' | h'
    · exact processPart_image acc p u h'
    · exact Or.inr h'

lemma scanParts_image (ps : List Part) (u : String) (h : (scanParts ps).1 = some u) :
    ∃ mime payload, u = "data:" ++ mime ++ ";base64," ++ payload ∧ payload ≠ "" := by
  rcases foldl_processPart_image ps (none, none) u h with h' | h'
  · exact absurd h' (by simp)
  · exact h'

lemma generatePanorama_ok_form (b m p k : String)
    (resp : Except String GenerateContentResponse) (r : PanoramaResult)
    (h : generatePanorama b m p k resp = Except.ok r) :
    ∃ mime payload,
      r.imageUrl = some ("data:" ++ mime ++ ";base64," ++ payload) ∧ payload ≠ "" := by
  unfold generatePanorama at h
  by_cases hk : k = ""
  · rw [if_pos hk] at h; exact absurd h (by simp)
  · rw [if_neg hk] at h
    cases resp with
    | error e => exact absurd h (by simp)
    | ok resp =>
      simp only at h
      cases hc : resp.candidates with
      | nil => rw [hc] at h; exact absurd h (by simp)
      | cons c cs =>
        rw [hc] at h
        cases hs : (scanParts c.content.parts).1 with
        | none => rw [hs] at h; exact absurd h (by simp)
        | some u =>
          rw [hs] at h
          obtain ⟨mime, payload, hform, hne⟩ := scanParts_image c.content.parts u hs
          have hr : r = { imageUrl := some u, text := (scanParts c.content.parts).2 } := by
            exact (Except.ok.injEq _ _ ▸ h).symm
          exact ⟨mime, payload, by rw [hr, hform], hne⟩

lemma enhanceImage_ok_form (b m k : String)
    (resp : Except String GenerateContentResponse) (r : PanoramaResult)
    (h : enhanceImage b m k resp = Except.ok r) :
    ∃ mime payload,
      r.imageUrl = some ("data:" ++ mime ++ ";base64," ++ payload) ∧ payload ≠ "" := by
  unfold enhanceImage at h
  by_cases hk : k = ""
  · rw [if_pos hk] at h; exact absurd h (by simp)
  · rw [if_neg hk] at h
    cases resp with
    | error e => exact absurd h (by simp)
    | ok resp =>
      simp only at h
      cases hc : resp.candidates with
      | nil => rw [hc] at h; exact absurd h (by simp)
      | cons c cs =>
        rw [hc] at h
        cases hs : (scanParts c.content.parts).1 with
        | none => rw [hs] at h; exact absurd h (by simp)
        | some u =>
          rw [hs] at h
          obtain ⟨mime, payload, hform, hne⟩ := scanParts_image c.content.parts u hs
          have hr : r = { imageUrl := some u, text := (scanParts c.content.parts).2 } := by
            exact (Except.ok.injEq _ _ ▸ h).symm
          exact ⟨mime, payload, by rw [hr, hform], hne⟩

lemma jsTruthy_dataUrl (m p : String) :
    jsTruthy (some ("data:" ++ m ++ ";base64," ++ p)) = true := by
  simp [jsTruthy, jsTruthyStr, dataUrl_ne_empty m p]

/-! ## Claim C7 -/

/-- C7: each of the three remote operations called with an absent (empty)
credential string fails with the missing-key configuration error, and does so
uniformly in the abstracted network response, i.e. before any network attempt
could influence the outcome. -/
theorem services_reject_missing_credential (prompt b m u : String)
    (r1 : Except String GenerateImagesResponse)
    (r2 r3 : Except String GenerateContentResponse) :
    generateSourceImage prompt "" r1 = Except.error apiKeyMissingMsg ∧
    generatePanorama b m u "" r2 = Except.error apiKeyMissingMsg ∧
    enhanceImage b m "" r3 = Except.error apiKeyMissingMsg :=
  ⟨rfl, rfl, rfl⟩

/-! ## Shared lemmas about the controller handlers -/

lemma handleGenerate_ok (s : AppState) (now : Nat)
    (resp : Except String GenerateContentResponse) (r : PanoramaResult)
    (h1 : jsTruthy s.base64Image = true) (h2 : jsTruthy s.mimeType = true)
    (h3 : s.prompt ≠ "") (h4 : s.apiKey ≠ "")
    (hok : generatePanorama (s.base64Image.getD "") (s.mimeType.getD "")
      s.prompt s.apiKey resp = Except.ok r) :
    handleGenerate s now resp =
      { s with isLoading := false, error := none,
               generatedImage := r.imageUrl, generatedText := r.text,
               statusMessage := "Панорама успешно создана!",
               history := { id := now, prompt := s.prompt,
                            templateImageBase64 := s.base64Image.getD "",
                            templateImageMimeType := s.mimeType.getD "",
                            generatedImageUrl := r.imageUrl.getD "" } :: s.history } := by
  obtain ⟨mime, payload, himg, hne⟩ := generatePanorama_ok_form _ _ _ _ _ _ hok
  have htruthy : jsTruthy r.imageUrl = true := by
    rw [himg]; exact jsTruthy_dataUrl mime payload
  have hguard : (!jsTruthy s.base64Image || !jsTruthy s.mimeType ||
      !jsTruthyStr s.prompt || !jsTruthyStr s.apiKey) = false := by
    simp [h1, h2, jsTruthyStr, h3, h4]
  unfold handleGenerate
  rw [hguard]
  simp only [Bool.false_eq_true, if_false, hok, htruthy, if_true]

lemma handleGenerate_error (s : AppState) (now : Nat)
    (resp : Except String GenerateContentResponse) (e : String)
    (h1 : jsTruthy s.base64Image = true) (h2 : jsTruthy s.mimeType = true)
    (h3 : s.prompt ≠ "") (h4 : s.apiKey ≠ "")
    (herr : generatePanorama (s.base64Image.getD "") (s.mimeType.getD "")
      s.prompt s.apiKey resp = Except.error e) :
    handleGenerate s now resp =
      { s with isLoading := false, error := some e,
               generatedImage := none, generatedText := none,
               statusMessage := "" } := by
  have hguard : (!jsTruthy s.base64Image || !jsTruthy s.mimeType ||
      !jsTruthyStr s.prompt || !jsTruthyStr s.apiKey) = false := by
    simp [h1, h2, jsTruthyStr, h3, h4]
  unfold handleGenerate
  rw [hguard]
  simp only [Bool.false_eq_true, if_false, herr]

lemma handleEnhance_ok (s : AppState) (resp : Except String GenerateContentResponse)
    (r : PanoramaResult) (h0 : HistoryItem) (rest : List HistoryItem)
    (hh : s.history = h0 :: rest)
    (hg : jsTruthy s.generatedImage = true) (hk : s.apiKey ≠ "")
    (hsplit : (jsSplit (s.generatedImage.getD "") ',').length = 2)
    (hok : enhanceImage ((jsSplit (s.generatedImage.getD "") ',').getD 1 "")
      (getMime ((jsSplit (s.generatedImage.getD "") ',').getD 0 ""))
      s.apiKey resp = Except.ok r) :
    ∃ u, r.imageUrl = some u ∧ u ≠ "" ∧
      handleEnhance s resp =
        { s with isEnhancing := false, error := none,
                 generatedImage := r.imageUrl, generatedText := r.text,
                 history := { id := h0.id, prompt := h0.prompt,
                              templateImageBase64 := h0.templateImageBase64,
                              templateImageMimeType := h0.templateImageMimeType,
                              generatedImageUrl := u } :: rest } := by
  obtain ⟨mime, payload, himg, hne⟩ := enhanceImage_ok_form _ _ _ _ _ hok
  refine ⟨"data:" ++ mime ++ ";base64," ++ payload, himg, dataUrl_ne_empty mime payload, ?_⟩
  unfold handleEnhance
  rw [hg]
  have hk' : jsTruthyStr s.apiKey = true := by simp [jsTruthyStr, hk]
  rw [hk']
  simp only [Bool.not_true, Bool.false_eq_true, if_false]
  rw [if_pos hsplit, hok]
  simp only [himg, hh]
  rw [if_pos (dataUrl_ne_empty mime payload)]

lemma handleEnhance_error (s : AppState) (resp : Except String GenerateContentResponse)
    (e : String)
    (hg : jsTruthy s.generatedImage = true) (hk : s.apiKey ≠ "")
    (hsplit : (jsSplit (s.generatedImage.getD "") ',').length = 2)
    (herr : enhanceImage ((jsSplit (s.generatedImage.getD "") ',').getD 1 "")
      (getMime ((jsSplit (s.generatedImage.getD "") ',').getD 0 ""))
      s.apiKey resp = Except.error e) :
    handleEnhance s resp =
      { s with isEnhancing := false, error := some e, generatedText := none } := by
  unfold handleEnhance
  rw [hg]
  have hk' : jsTruthyStr s.apiKey = true := by simp [jsTruthyStr, hk]
  rw [hk']
  simp only [Bool.not_true, Bool.false_eq_true, if_false]
  rw [if_pos hsplit, herr]

lemma handleGenerateInitial_error (s : AppState)
    (sourceResp : Except String GenerateImagesResponse) (previewUrl : String)
    (templateResult : Except String FileConversionResult) (e : String)
    (hp : s.initialPrompt ≠ "") (hk : s.apiKey ≠ "")
    (herr : generateSourceImage s.initialPrompt s.apiKey sourceResp = Except.error e) :
    handleGenerateInitial s sourceResp previewUrl templateResult =
      { s with isGeneratingInitial := false, error := some e,
               generatedImage := none, generatedText := none,
               imagePreview := none, base64Image := none } := by
  unfold handleGenerateInitial
  have hp' : jsTruthyStr s.initialPrompt = true := by simp [jsTruthyStr, hp]
  have hk' : jsTruthyStr s.apiKey = true := by simp [jsTruthyStr, hk]
  rw [hp', hk']
  simp only [Bool.not_true, Bool.false_eq_true, if_false]
  rw [herr]

/-! ## Concrete demonstration state and response used by the witnesses -/

def demoHistoryItem1 : HistoryItem :=
  { id := 1, prompt := "первый", templateImageBase64 := "QUFB",
    templateImageMimeType := "image/png",
    generatedImageUrl := "data:image/png;base64,b2xk" }

def demoHistoryItem2 : HistoryItem :=
  { id := 2, prompt := "второй", templateImageBase64 := "QkJC",
    templateImageMimeType := "image/png",
    generatedImageUrl := "data:image/png;base64,c3RhbGU=" }

def demoState : AppState :=
  { apiKey := "key", base64Image := some "dGVzdA==",
    imagePreview := some "blob:preview", mimeType := some "image/png",
    prompt := "prompt", generatedImage := some "data:image/png;base64,b2xk",
    generatedText := some "описание", isLoading := false, isEnhancing := false,
    error := none, statusMessage := "", history := [],
    sourceMode := SourceMode.upload, initialPrompt := "start",
    isGeneratingInitial := false }

def demoOkResponse : GenerateContentResponse :=
  { candidates :=
      [{ content :=
          { parts :=
              [{ inlineData := some { data := "QUJD", mimeType := "image/png" },
                 text := none },
               { inlineData := none, text := some "готово" }] } }] }

/-! ## Claim C3 -/

/-- C3 counterexample: a failed generate-panorama call does not leave the
previously displayed result unchanged: starting from a state displaying a
result image, a transport failure ends with the displayed image cleared to
`none` (it was reset at the start of the action), contradicting the claim. -/
theorem failed_generate_clears_displayed_result :
    demoState.generatedImage = some "data:image/png;base64,b2xk" ∧
    (handleGenerate demoState 0 (Except.error "network down")).error =
      some panoramaFailMsg ∧
    (handleGenerate demoState 0 (Except.error "network down")).generatedImage = none ∧
    (handleGenerate demoState 0 (Except.error "network down")).generatedImage ≠
      demoState.generatedImage := by
  refine ⟨rfl, rfl, rfl, by decide⟩

/-- C3 amended: whenever a generate, enhance or source-acquisition operation
ends in an error, the history list is unchanged and the error is surfaced
with a pending status message cleared; however the fields the operation
clears at its start stay cleared: generate and source acquisition clear the
displayed result image and text (source acquisition also the preview and
template), and enhance clears only the descriptive text, keeping the
displayed image. -/
theorem failed_operations_leave_history_unchanged :
    (∀ (s : AppState) (now : Nat) (resp : Except String GenerateContentResponse)
        (e : String),
      jsTruthy s.base64Image = true → jsTruthy s.mimeType = true →
      s.prompt ≠ "" → s.apiKey ≠ "" →
      generatePanorama (s.base64Image.getD "") (s.mimeType.getD "")
        s.prompt s.apiKey resp = Except.error e →
      (handleGenerate s now resp).history = s.history ∧
      handleGenerate s now resp =
        { s with isLoading := false, error := some e, generatedImage := none,
                 generatedText := none, statusMessage := "" }) ∧
    (∀ (s : AppState) (resp : Except String GenerateContentResponse) (e : String),
      jsTruthy s.generatedImage = true → s.apiKey ≠ "" →
      (jsSplit (s.generatedImage.getD "") ',').length = 2 →
      enhanceImage ((jsSplit (s.generatedImage.getD "") ',').getD 1 "")
        (getMime ((jsSplit (s.generatedImage.getD "") ',').getD 0 ""))
        s.apiKey resp = Except.error e →
      (handleEnhance s resp).history = s.history ∧
      (handleEnhance s resp).generatedImage = s.generatedImage ∧
      handleEnhance s resp =
        { s with isEnhancing := false, error := some e, generatedText := none }) ∧
    (∀ (s : AppState) (sourceResp : Except String GenerateImagesResponse)
        (previewUrl : String) (templateResult : Except String FileConversionResult)
        (e : String),
      s.initialPrompt ≠ "" → s.apiKey ≠ "" →
      generateSourceImage s.initialPrompt s.apiKey sourceResp = Except.error e →
      (handleGenerateInitial s sourceResp previewUrl templateResult).history =
        s.history ∧
      handleGenerateInitial s sourceResp previewUrl templateResult =
        { s with isGeneratingInitial := false, error := some e,
                 generatedImage := none, generatedText := none,
                 imagePreview := none, base64Image := none }) := by
  refine ⟨?_, ?_, ?_⟩
  · intro s now resp e h1 h2 h3 h4 herr
    rw [handleGenerate_error s now resp e h1 h2 h3 h4 herr]
    exact ⟨rfl, rfl⟩
  · intro s resp e hg hk hsplit herr
    rw [handleEnhance_error s resp e hg hk hsplit herr]
    exact ⟨rfl, rfl, rfl⟩
  · intro s sourceResp previewUrl templateResult e hp hk herr
    rw [handleGenerateInitial_error s sourceResp previewUrl templateResult e hp hk herr]
    exact ⟨rfl, rfl⟩

/-- C3 witness: the amended error property instantiated at the demonstration
state with a failing generate call. -/
theorem failed_operations_leave_history_unchanged_witness :
    (handleGenerate demoState 5 (Except.error "boom")).history = demoState.history ∧
    handleGenerate demoState 5 (Except.error "boom") =
      { demoState with isLoading := false, error := some panoramaFailMsg,
                       generatedImage := none, generatedText := none,
                       statusMessage := "" } :=
  failed_operations_leave_history_unchanged.1 demoState 5 (Except.error "boom")
    panoramaFailMsg (by decide) (by decide) (by decide) (by decide) rfl

/-! ## Claim C4 -/

/-- C4: under the generate preconditions, a successful outpaint call prepends
exactly one new history entry in front of the unchanged previous entries,
while a failed call leaves the history list exactly as it was. -/
theorem handleGenerate_history_effect (s : AppState) (now : Nat)
    (resp : Except String GenerateContentResponse)
    (h1 : jsTruthy s.base64Image = true) (h2 : jsTruthy s.mimeType = true)
    (h3 : s.prompt ≠ "") (h4 : s.apiKey ≠ "") :
    (∀ r, generatePanorama (s.base64Image.getD "") (s.mimeType.getD "")
        s.prompt s.apiKey resp = Except.ok r →
      (handleGenerate s now resp).history =
        { id := now, prompt := s.prompt,
          templateImageBase64 := s.base64Image.getD "",
          templateImageMimeType := s.mimeType.getD "",
          generatedImageUrl := r.imageUrl.getD "" } :: s.history) ∧
    (∀ e, generatePanorama (s.base64Image.getD "") (s.mimeType.getD "")
        s.prompt s.apiKey resp = Except.error e →
      (handleGenerate s now resp).history = s.history) := by
  constructor
  · intro r hok
    rw [handleGenerate_ok s now resp r h1 h2 h3 h4 hok]
  · intro e herr
    rw [handleGenerate_error s now resp e h1 h2 h3 h4 herr]

/-- C4 witness: the history effect instantiated at the demonstration state
with a successful response. -/
theorem handleGenerate_history_effect_witness :
    (handleGenerate demoState 7 (Except.ok demoOkResponse)).history =
      { id := 7, prompt := demoState.prompt,
        templateImageBase64 := demoState.base64Image.getD "",
        templateImageMimeType := demoState.mimeType.getD "",
        generatedImageUrl :=
          (PanoramaResult.mk (some "data:image/png;base64,QUJD")
            (some "готово")).imageUrl.getD "" } :: demoState.history :=
  (handleGenerate_history_effect demoState 7 (Except.ok demoOkResponse)
      (by decide) (by decide) (by decide) (by decide)).1
    ⟨some "data:image/png;base64,QUJD", some "готово"⟩ rfl

/-! ## Claim C5 -/

/-- C5: for a non-empty history, a successful enhance call rewrites only the
newest entry's result-image field: its id, prompt and template payload and
format are unchanged and every older entry is untouched. -/
theorem handleEnhance_updates_only_newest (s : AppState)
    (resp : Except String GenerateContentResponse) (r : PanoramaResult)
    (h0 : HistoryItem) (rest : List HistoryItem)
    (hh : s.history = h0 :: rest)
    (hg : jsTruthy s.generatedImage = true) (hk : s.apiKey ≠ "")
    (hsplit : (jsSplit (s.generatedImage.getD "") ',').length = 2)
    (hok : enhanceImage ((jsSplit (s.generatedImage.getD "") ',').getD 1 "")
      (getMime ((jsSplit (s.generatedImage.getD "") ',').getD 0 ""))
      s.apiKey resp = Except.ok r) :
    ∃ u, r.imageUrl = some u ∧
      (handleEnhance s resp).history =
        { id := h0.id, prompt := h0.prompt,
          templateImageBase64 := h0.templateImageBase64,
          templateImageMimeType := h0.templateImageMimeType,
          generatedImageUrl := u } :: rest := by
  obtain ⟨u, himg, hne, heq⟩ := handleEnhance_ok s resp r h0 rest hh hg hk hsplit hok
  exact ⟨u, himg, by rw [heq]⟩

def demoEnhState : AppState :=
  { demoState with history := [demoHistoryItem1, demoHistoryItem2] }

/-- C5 witness: the enhance effect instantiated at a state with a two-entry
history and a successful response. -/
theorem handleEnhance_updates_only_newest_witness :
    ∃ u, (PanoramaResult.mk (some "data:image/png;base64,QUJD")
        (some "готово")).imageUrl = some u ∧
      (handleEnhance demoEnhState (Except.ok demoOkResponse)).history =
        { id := demoHistoryItem1.id, prompt := demoHistoryItem1.prompt,
          templateImageBase64 := demoHistoryItem1.templateImageBase64,
          templateImageMimeType := demoHistoryItem1.templateImageMimeType,
          generatedImageUrl := u } :: [demoHistoryItem2] :=
  handleEnhance_updates_only_newest demoEnhState (Except.ok demoOkResponse)
    ⟨some "data:image/png;base64,QUJD", some "готово"⟩ demoHistoryItem1
    [demoHistoryItem2] rfl (by decide) (by decide) (by decide) rfl

/-! ## Claim C6 -/

/-- C6: in any state where the template image, its format tag, the prompt
text or the credential is absent, triggering generate only sets the
precondition error message (which names the required image, description and
API key) and changes nothing else; the result is the same for every possible
remote response, so no remote call is made. -/
theorem handleGenerate_rejects_missing_precondition (s : AppState) (now : Nat)
    (resp : Except String GenerateContentResponse)
    (h : jsTruthy s.base64Image = false ∨ jsTruthy s.mimeType = false ∨
      s.prompt = "" ∨ s.apiKey = "") :
    handleGenerate s now resp = { s with error := some generatePreconditionMsg } := by
  rcases h with h | h | h | h <;>
    simp [handleGenerate, h, jsTruthyStr]

/-- C6 witness: the precondition rejection instantiated at the demonstration
state with its credential removed. -/
theorem handleGenerate_rejects_missing_precondition_witness :
    handleGenerate { demoState with apiKey := "" } 3 (Except.error "ignored") =
      { { demoState with apiKey := "" } with error := some generatePreconditionMsg } :=
  handleGenerate_rejects_missing_precondition { demoState with apiKey := "" } 3
    (Except.error "ignored") (Or.inr (Or.inr (Or.inr rfl)))

/-! ## Claim C9 -/

/-- C9: reusing a history entry restores exactly the entry's stored prompt,
template payload and format tag, preview and result image, clears the
transient error and text, and leaves the history list itself unchanged; the
operation takes no remote response, so no network call occurs. -/
theorem handleReuseItem_restores_entry (s : AppState) (item : HistoryItem) :
    handleReuseItem s item =
      { s with prompt := item.prompt,
               base64Image := some item.templateImageBase64,
               mimeType := some item.templateImageMimeType,
               imagePreview :=
                 some ("data:" ++ item.templateImageMimeType ++ ";base64," ++
                   item.templateImageBase64),
               generatedImage := some item.generatedImageUrl,
               generatedText := none, error := none,
               sourceMode := SourceMode.upload } ∧
    (handleReuseItem s item).history = s.history ∧
    (handleReuseItem s item).error = none :=
  ⟨rfl, rfl, rfl⟩

/-! ## Claim C10 -/

/-- C10 (implicit): a successful return of `generatePanorama` or
`enhanceImage` always carries an image URL of the form
`data:mime;base64,payload`, never `none`; consequently, under the generate
preconditions every successful outpaint grows the history by exactly one
entry, and every successful enhance on a non-empty history rewrites the
newest entry's result field. -/
theorem services_ok_imageUrl_nonnull :
    (∀ (b m u k : String) (resp : Except String GenerateContentResponse)
        (r : PanoramaResult),
      generatePanorama b m u k resp = Except.ok r →
      jsTruthy r.imageUrl = true ∧
      ∃ mime payload, r.imageUrl = some ("data:" ++ mime ++ ";base64," ++ payload)) ∧
    (∀ (b m k : String) (resp : Except String GenerateContentResponse)
        (r : PanoramaResult),
      enhanceImage b m k resp = Except.ok r →
      jsTruthy r.imageUrl = true ∧
      ∃ mime payload, r.imageUrl = some ("data:" ++ mime ++ ";base64," ++ payload)) ∧
    (∀ (s : AppState) (now : Nat) (resp : Except String GenerateContentResponse)
        (r : PanoramaResult),
      jsTruthy s.base64Image = true → jsTruthy s.mimeType = true →
      s.prompt ≠ "" → s.apiKey ≠ "" →
      generatePanorama (s.base64Image.getD "") (s.mimeType.getD "")
        s.prompt s.apiKey resp = Except.ok r →
      (handleGenerate s now resp).history.length = s.history.length + 1) ∧
    (∀ (s : AppState) (resp : Except String GenerateContentResponse)
        (r : PanoramaResult) (h0 : HistoryItem) (rest : List HistoryItem),
      s.history = h0 :: rest →
      jsTruthy s.generatedImage = true → s.apiKey ≠ "" →
      (jsSplit (s.generatedImage.getD "") ',').length = 2 →
      enhanceImage ((jsSplit (s.generatedImage.getD "") ',').getD 1 "")
        (getMime ((jsSplit (s.generatedImage.getD "") ',').getD 0 ""))
        s.apiKey resp = Except.ok r →
      ∃ u, r.imageUrl = some u ∧
        (handleEnhance s resp).history =
          { h0 with generatedImageUrl := u } :: rest) := by
  refine ⟨?_, ?_, ?_, ?_⟩
  · intro b m u k resp r hok
    obtain ⟨mime, payload, himg, hne⟩ := generatePanorama_ok_form b m u k resp r hok
    exact ⟨by rw [himg]; exact jsTruthy_dataUrl mime payload, mime, payload, himg⟩
  · intro b m k resp r hok
    obtain ⟨mime, payload, himg, hne⟩ := enhanceImage_ok_form b m k resp r hok
    exact ⟨by rw [himg]; exact jsTruthy_dataUrl mime payload, mime, payload, himg⟩
  · intro s now resp r h1 h2 h3 h4 hok
    rw [handleGenerate_ok s now resp r h1 h2 h3 h4 hok]
    simp
  · intro s resp r h0 rest hh hg hk hsplit hok
    obtain ⟨u, himg, hne, heq⟩ := handleEnhance_ok s resp r h0 rest hh hg hk hsplit hok
    exact ⟨u, himg, by rw [heq]⟩

/-- C10 witness: the successful-return shape instantiated at the
demonstration response. -/
theorem services_ok_imageUrl_nonnull_witness :
    jsTruthy (PanoramaResult.mk (some "data:image/png;base64,QUJD")
      (some "готово")).imageUrl = true ∧
    ∃ mime payload,
      (PanoramaResult.mk (some "data:image/png;base64,QUJD")
        (some "готово")).imageUrl =
        some ("data:" ++ mime ++ ";base64," ++ payload) :=
  services_ok_imageUrl_nonnull.1 "b" "m" "u" "k" (Except.ok demoOkResponse)
    ⟨some "data:image/png;base64,QUJD", some "готово"⟩ rfl

end NanoPanorama
